import Mathlib

/-!
Verification of the Activeledger SSE helper crate (src/lib.rs).

The crate's core is the subscription configuration model: a `Config` value
holding a base URL extended in place by kind-checked setters, and a thin
`ActiveSSE::subscribe` that hands the resolved URL to an external
`EventSource` transport.

Shallow embedding conventions:
- Rust `&mut self` setters returning `SSEResult<&mut Self>` become pure
  functions `Config → String → Option SSEError × Config`: the first
  component is `some e` exactly when the Rust setter returns `Err(e)`
  (before any field assignment, so the returned state is the input state),
  and `none` when it returns `Ok`, the second component being the
  post-call state of `self`.
- `format!("{}{}", a, b)` becomes `a ++ b`.
- The `SSEError` enum lives in the crate's `error` module (not part of the
  sources at hand); its three variants are exactly the ones constructed in
  lib.rs (`IncompatibleConfig`, `ContractNotSet`, `EventSource`).
- The Rust struct field `event` is rendered `event_name` because the Lean
  projection would otherwise collide with the factory `Config.event`.
-/

inductive ConfigType where
  | Activity
  | Event
deriving DecidableEq, Repr

/-- The error kinds constructed by lib.rs; the spec calls the last one
`TransportUnavailable`. Modelled from the spec and from the constructor
uses in lib.rs, since the `error` module's source file is not at hand:
each variant carries no payload, exactly as the constructors are applied
in lib.rs (`SSEError::IncompatibleConfig`, `SSEError::ContractNotSet`,
`SSEError::EventSource`). -/
inductive SSEError where
  | IncompatibleConfig
  | ContractNotSet
  | EventSource
deriving DecidableEq, Repr

structure Config where
  url : String
  config_type : ConfigType
  stream_id : Option String
  contract : Option String
  event_name : Option String
deriving DecidableEq, Repr

/-- Embeds `Config::activity(url)` from lib.rs. -/
def Config.activity (url : String) : Config :=
  { url := url ++ "/api/activity/subscribe/"
    config_type := ConfigType.Activity
    stream_id := none
    contract := none
    event_name := none }

/-- Embeds `Config::event(url)` from lib.rs. -/
def Config.event (url : String) : Config :=
  { url := url ++ "/api/events/"
    config_type := ConfigType.Event
    stream_id := none
    contract := none
    event_name := none }

/-- Embeds `Config::set_stream_id` from lib.rs. -/
def Config.set_stream_id (c : Config) (id : String) : Option SSEError × Config :=
  if ConfigType.Activity ≠ c.config_type then
    (some SSEError.IncompatibleConfig, c)
  else
    (none, { c with stream_id := some id, url := c.url ++ id })

/-- Embeds `Config::set_contract` from lib.rs. -/
def Config.set_contract (c : Config) (contract : String) : Option SSEError × Config :=
  if ConfigType.Event ≠ c.config_type then
    (some SSEError.IncompatibleConfig, c)
  else
    (none, { c with contract := some contract, url := c.url ++ contract })

/-- Embeds `Config::set_event` from lib.rs. -/
def Config.set_event (c : Config) (event : String) : Option SSEError × Config :=
  if ConfigType.Event ≠ c.config_type then
    (some SSEError.IncompatibleConfig, c)
  else if c.contract.isNone then
    (some SSEError.ContractNotSet, c)
  else
    (none, { c with event_name := some event, url := c.url ++ event })

/-- Embeds `Config::get_url` from lib.rs (the resolved-path accessor). -/
def Config.get_url (c : Config) : String :=
  c.url

/-- One setter invocation, named by which of the three setters is called. -/
inductive SetterCall where
  | streamId (id : String)
  | contract (c : String)
  | event (e : String)
deriving DecidableEq, Repr

def applyCall (c : Config) : SetterCall → Option SSEError × Config
  | SetterCall.streamId s => c.set_stream_id s
  | SetterCall.contract s => c.set_contract s
  | SetterCall.event s => c.set_event s

/-- Run a sequence of setter calls, stopping at the first error (as a Rust
caller using `?` would). -/
def applyCalls (c : Config) : List SetterCall → Option SSEError × Config
  | [] => (none, c)
  | call :: rest =>
    match applyCall c call with
    | (none, c2) => applyCalls c2 rest
    | (some e, c2) => (some e, c2)

/-- Configurations reachable by a factory followed by any sequence of
setter calls (failing calls leave the state as they found it). -/
inductive Reachable : Config → Prop where
  | activity (u : String) : Reachable (Config.activity u)
  | event (u : String) : Reachable (Config.event u)
  | step (c : Config) (call : SetterCall) :
      Reachable c → Reachable (applyCall c call).2

structure ActiveSSE where
  config : Config

/-- Embeds `ActiveSSE::new` from lib.rs. -/
def ActiveSSE.new (config : Config) : ActiveSSE :=
  { config }

/-- The external `sse_client::EventSource` collaborator, reduced to the one
capability lib.rs uses after construction: `client.receiver()`. -/
structure EventSource (R : Type) where
  receiver : R

/-- Embeds `ActiveSSE::subscribe` from lib.rs, parameterised by the external
`EventSource::new` constructor (the stream transport). -/
def ActiveSSE.subscribe {E R : Type} (eventSourceNew : String → Except E (EventSource R))
    (sse : ActiveSSE) : Except SSEError R :=
  match eventSourceNew sse.config.get_url with
  | Except.error _ => Except.error SSEError.EventSource
  | Except.ok client => Except.ok client.receiver

theorem string_append_empty (s : String) : s ++ "" = s := by
  cases s with
  | mk data => simp [String.append]

/-- Claim C1: for every valid kind-legal field sequence in which each call
succeeds, `resolved_path` (`get_url`) is the exact concatenation of the
base URL, the kind-specific fixed prefix, and the set values appended
directly with no separators, in id → contract → event order; in
particular `Config::event("http://host:5260")` then `set_contract("c1")`
then `set_event("fired")` resolves to
`"http://host:5260/api/events/c1fired"`. -/
theorem C1_resolved_path_concatenation (base s c e : String) :
    (Config.activity base).get_url = base ++ "/api/activity/subscribe/"
    ∧ (applyCalls (Config.activity base) [SetterCall.streamId s]).1 = none
    ∧ (applyCalls (Config.activity base) [SetterCall.streamId s]).2.get_url
        = base ++ "/api/activity/subscribe/" ++ s
    ∧ (Config.event base).get_url = base ++ "/api/events/"
    ∧ (applyCalls (Config.event base) [SetterCall.contract c]).1 = none
    ∧ (applyCalls (Config.event base) [SetterCall.contract c]).2.get_url
        = base ++ "/api/events/" ++ c
    ∧ (applyCalls (Config.event base) [SetterCall.contract c, SetterCall.event e]).1 = none
    ∧ (applyCalls (Config.event base) [SetterCall.contract c, SetterCall.event e]).2.get_url
        = base ++ "/api/events/" ++ c ++ e
    ∧ (applyCalls (Config.event "http://host:5260")
        [SetterCall.contract "c1", SetterCall.event "fired"]).2.get_url
        = "http://host:5260/api/events/c1fired" := by
  refine ⟨rfl, rfl, rfl, rfl, rfl, rfl, rfl, rfl, rfl⟩

/-- Claim C2: for every base URL string, `Config::activity` returns an
Activity-kind config whose resolved path is the base URL plus
`"/api/activity/subscribe/"`, and `Config::event` returns an Event-kind
config whose resolved path is the base URL plus `"/api/events/"`; in
both, `stream_id`, `contract` and `event_name` start unset. -/
theorem C2_factories (base : String) :
    Config.activity base
      = { url := base ++ "/api/activity/subscribe/"
          config_type := ConfigType.Activity
          stream_id := none, contract := none, event_name := none }
    ∧ Config.event base
      = { url := base ++ "/api/events/"
          config_type := ConfigType.Event
          stream_id := none, contract := none, event_name := none } :=
  ⟨rfl, rfl⟩

/-- Claim C3: `set_stream_id` on an Event-kind config always fails with
`IncompatibleConfig`, and `set_contract` / `set_event` on an
Activity-kind config always fail with `IncompatibleConfig` — for every
configuration and every argument string. -/
theorem C3_incompatible_kind (cfg : Config) (arg : String) :
    (cfg.config_type = ConfigType.Event →
      (cfg.set_stream_id arg).1 = some SSEError.IncompatibleConfig)
    ∧ (cfg.config_type = ConfigType.Activity →
      (cfg.set_contract arg).1 = some SSEError.IncompatibleConfig
      ∧ (cfg.set_event arg).1 = some SSEError.IncompatibleConfig) := by
  constructor
  · intro h
    simp [Config.set_stream_id, h]
  · intro h
    constructor
    · simp [Config.set_contract, h]
    · simp [Config.set_event, h]

theorem C3_incompatible_kind_witness :
    ((Config.event "u").set_stream_id "s").1 = some SSEError.IncompatibleConfig
    ∧ ((Config.activity "u").set_contract "c").1 = some SSEError.IncompatibleConfig
    ∧ ((Config.activity "u").set_event "e").1 = some SSEError.IncompatibleConfig :=
  ⟨(C3_incompatible_kind (Config.event "u") "s").1 rfl,
   ((C3_incompatible_kind (Config.activity "u") "c").2 rfl).1,
   ((C3_incompatible_kind (Config.activity "u") "e").2 rfl).2⟩

/-- Claim C4: on every Event-kind configuration whose contract is not yet
set, `set_event` fails with `ContractNotSet`, for every event-name
argument and every base URL content. -/
theorem C4_contract_not_set (cfg : Config) (ev : String)
    (hk : cfg.config_type = ConfigType.Event) (hc : cfg.contract = none) :
    (cfg.set_event ev).1 = some SSEError.ContractNotSet := by
  simp [Config.set_event, hk, hc]

theorem C4_contract_not_set_witness :
    ((Config.event "http://host:5260").set_event "fired").1
      = some SSEError.ContractNotSet :=
  C4_contract_not_set (Config.event "http://host:5260") "fired" rfl rfl

/-- Claim C5: every setter call that returns an error leaves the
configuration entirely unchanged; in particular after `Config::event`
a `set_event("fired")` call fails with `ContractNotSet` and the state
(hence the resolved path) is exactly what it was before the call. -/
theorem C5_failed_setter_atomic :
    (∀ (c : Config) (call : SetterCall) (e : SSEError),
      (applyCall c call).1 = some e → (applyCall c call).2 = c)
    ∧ (∀ base : String,
      (Config.event base).set_event "fired"
        = (some SSEError.ContractNotSet, Config.event base)) := by
  constructor
  · intro c call e h
    cases call with
    | streamId s =>
      by_cases h1 : ConfigType.Activity ≠ c.config_type
      · simp [applyCall, Config.set_stream_id, h1]
      · simp [applyCall, Config.set_stream_id, h1] at h
    | contract s =>
      by_cases h1 : ConfigType.Event ≠ c.config_type
      · simp [applyCall, Config.set_contract, h1]
      · simp [applyCall, Config.set_contract, h1] at h
    | event s =>
      by_cases h1 : ConfigType.Event ≠ c.config_type
      · simp [applyCall, Config.set_event, h1]
      · by_cases h2 : c.contract.isNone = true
        · simp [applyCall, Config.set_event, h1, h2]
        · simp [applyCall, Config.set_event, h1, h2] at h
  · intro base
    rfl

theorem C5_failed_setter_atomic_witness :
    (applyCall (Config.event "http://host:5260") (SetterCall.event "fired")).2
      = Config.event "http://host:5260" :=
  C5_failed_setter_atomic.1 (Config.event "http://host:5260")
    (SetterCall.event "fired") SSEError.ContractNotSet rfl

/-- Claim C6: setters are not idempotent and repeats are not rejected:
whenever a kind-legal setter has already succeeded on a configuration,
invoking the same setter again also succeeds and appends its argument to
the already-extended path unconditionally; in particular calling
`set_stream_id("x")` twice yields a path with the duplicated segment
`...xx`. -/
theorem C6_repeated_setter_appends :
    (∀ (c : Config) (s t : String), (c.set_stream_id s).1 = none →
      ((c.set_stream_id s).2.set_stream_id t).1 = none
      ∧ ((c.set_stream_id s).2.set_stream_id t).2.url
          = (c.set_stream_id s).2.url ++ t)
    ∧ (∀ (c : Config) (s t : String), (c.set_contract s).1 = none →
      ((c.set_contract s).2.set_contract t).1 = none
      ∧ ((c.set_contract s).2.set_contract t).2.url
          = (c.set_contract s).2.url ++ t)
    ∧ (∀ (c : Config) (s t : String), (c.set_event s).1 = none →
      ((c.set_event s).2.set_event t).1 = none
      ∧ ((c.set_event s).2.set_event t).2.url
          = (c.set_event s).2.url ++ t)
    ∧ (applyCalls (Config.activity "http://host:5260")
        [SetterCall.streamId "x", SetterCall.streamId "x"]).1 = none
    ∧ (applyCalls (Config.activity "http://host:5260")
        [SetterCall.streamId "x", SetterCall.streamId "x"]).2.get_url
        = "http://host:5260/api/activity/subscribe/xx" := by
  refine ⟨?_, ?_, ?_, rfl, rfl⟩
  · intro c s t h
    by_cases h1 : ConfigType.Activity ≠ c.config_type
    · simp [Config.set_stream_id, h1] at h
    · simp [Config.set_stream_id, h1]
  · intro c s t h
    by_cases h1 : ConfigType.Event ≠ c.config_type
    · simp [Config.set_contract, h1] at h
    · simp [Config.set_contract, h1]
  · intro c s t h
    by_cases h1 : ConfigType.Event ≠ c.config_type
    · simp [Config.set_event, h1] at h
    · by_cases h2 : c.contract.isNone = true
      · simp [Config.set_event, h1, h2] at h
      · simp [Config.set_event, h1, h2]

theorem C6_repeated_setter_appends_witness :
    (((Config.activity "u").set_stream_id "x").2.set_stream_id "x").1 = none
    ∧ (((Config.activity "u").set_stream_id "x").2.set_stream_id "x").2.url
        = ((Config.activity "u").set_stream_id "x").2.url ++ "x" :=
  C6_repeated_setter_appends.1 (Config.activity "u") "x" "x" rfl

/-- Claim C7: for every reachable configuration, `config_type` is exactly
what the factory fixed (every setter step preserves it), an
Activity-kind configuration keeps `contract` and `event_name` forever
unset, and an Event-kind configuration keeps `stream_id` forever unset —
so the resolved path never includes a field of the other kind. -/
theorem C7_kind_fixed_and_fields_segregated :
    (∀ (c : Config) (call : SetterCall),
      ((applyCall c call).2).config_type = c.config_type)
    ∧ (∀ c : Config, Reachable c →
      (c.config_type = ConfigType.Activity →
        c.contract = none ∧ c.event_name = none)
      ∧ (c.config_type = ConfigType.Event → c.stream_id = none)) := by
  constructor
  · intro c call
    cases call with
    | streamId s =>
      by_cases h1 : ConfigType.Activity ≠ c.config_type
      · simp [applyCall, Config.set_stream_id, h1]
      · simp [applyCall, Config.set_stream_id, h1]
    | contract s =>
      by_cases h1 : ConfigType.Event ≠ c.config_type
      · simp [applyCall, Config.set_contract, h1]
      · simp [applyCall, Config.set_contract, h1]
    | event s =>
      by_cases h1 : ConfigType.Event ≠ c.config_type
      · simp [applyCall, Config.set_event, h1]
      · by_cases h2 : c.contract.isNone = true
        · simp [applyCall, Config.set_event, h1, h2]
        · simp [applyCall, Config.set_event, h1, h2]
  · intro c hr
    induction hr with
    | activity u => simp [Config.activity]
    | event u => simp [Config.event]
    | step c call _ ih =>
      cases call with
      | streamId s =>
        by_cases h1 : ConfigType.Activity ≠ c.config_type
        · simpa [applyCall, Config.set_stream_id, h1] using ih
        · have hA : c.config_type = ConfigType.Activity := (not_ne_iff.mp h1).symm
          simp [applyCall, Config.set_stream_id, h1, hA, (ih.1 hA).1, (ih.1 hA).2]
      | contract s =>
        by_cases h1 : ConfigType.Event ≠ c.config_type
        · simpa [applyCall, Config.set_contract, h1] using ih
        · have hE : c.config_type = ConfigType.Event := (not_ne_iff.mp h1).symm
          simp [applyCall, Config.set_contract, h1, hE, ih.2 hE]
      | event s =>
        by_cases h1 : ConfigType.Event ≠ c.config_type
        · simpa [applyCall, Config.set_event, h1] using ih
        · have hE : c.config_type = ConfigType.Event := (not_ne_iff.mp h1).symm
          by_cases h2 : c.contract.isNone = true
          · simpa [applyCall, Config.set_event, h1, h2] using ih
          · simp [applyCall, Config.set_event, h1, h2, hE, ih.2 hE]

theorem C7_kind_fixed_and_fields_segregated_witness :
    (applyCall (Config.activity "u") (SetterCall.streamId "s")).2.contract = none
    ∧ (applyCall (Config.activity "u") (SetterCall.streamId "s")).2.event_name = none :=
  (C7_kind_fixed_and_fields_segregated.2
    (applyCall (Config.activity "u") (SetterCall.streamId "s")).2
    (Reachable.step (Config.activity "u") (SetterCall.streamId "s")
      (Reachable.activity "u"))).1 rfl

/-- Claim C8 (amended): `subscribe` consults the transport constructor at
exactly `config.get_url()` (two transports agreeing there give the same
result); when transport construction fails it returns the
`SSEError.EventSource` kind — which discards the underlying cause, so no
transport-specific detail leaks — and when construction succeeds it
returns the client's receive handle. -/
theorem C8_subscribe_contract (E R : Type)
    (n1 n2 : String → Except E (EventSource R)) (sse : ActiveSSE) :
    (∀ err : E, n1 sse.config.get_url = Except.error err →
      ActiveSSE.subscribe n1 sse = Except.error SSEError.EventSource)
    ∧ (∀ client : EventSource R, n1 sse.config.get_url = Except.ok client →
      ActiveSSE.subscribe n1 sse = Except.ok client.receiver)
    ∧ (n1 sse.config.get_url = n2 sse.config.get_url →
      ActiveSSE.subscribe n1 sse = ActiveSSE.subscribe n2 sse) := by
  refine ⟨?_, ?_, ?_⟩
  · intro err h
    simp [ActiveSSE.subscribe, h]
  · intro client h
    simp [ActiveSSE.subscribe, h]
  · intro h
    simp [ActiveSSE.subscribe, h]

theorem C8_subscribe_contract_witness :
    ActiveSSE.subscribe (E := String) (R := Nat)
      (fun _ => Except.error "connection refused")
      (ActiveSSE.new (Config.event "http://host:5260"))
      = Except.error SSEError.EventSource :=
  (C8_subscribe_contract String Nat
    (fun _ => Except.error "connection refused")
    (fun _ => Except.error "connection refused")
    (ActiveSSE.new (Config.event "http://host:5260"))).1
    "connection refused" rfl

/-- Claim C8, as stated, is false: the error returned on transport
construction failure does not wrap the underlying cause — `subscribe`
maps every cause to the bare `SSEError.EventSource` (in lib.rs,
`Err(_) => return Err(SSEError::EventSource)` drops the cause), so the
cause is not recoverable from the result. -/
theorem C8_counterexample :
    ¬ ∀ (e1 e2 : String),
      ActiveSSE.subscribe (R := Nat) (fun _ => Except.error e1)
          (ActiveSSE.new (Config.event "http://host:5260"))
        = ActiveSSE.subscribe (fun _ => Except.error e2)
          (ActiveSSE.new (Config.event "http://host:5260"))
      → e1 = e2 := by
  intro h
  have hab := h "connection refused" "dns failure" rfl
  simp at hab

/-- Claim C9: when the transport session delivers a finite sequence of
events and then closes (the receive handle is modelled as that
sequence, in arrival order, termination being its end), the handle
returned by `subscribe` carries exactly that sequence — `subscribe`
passes the transport's receiver through unchanged, adding, dropping and
reordering nothing. -/
theorem C9_subscribe_delivers_in_order {Ev E : Type}
    (n : String → Except E (EventSource (List Ev)))
    (sse : ActiveSSE) (evs : List Ev)
    (h : n sse.config.get_url = Except.ok { receiver := evs }) :
    ActiveSSE.subscribe n sse = Except.ok evs := by
  simp [ActiveSSE.subscribe, h]

theorem C9_subscribe_delivers_in_order_witness :
    ActiveSSE.subscribe (E := Unit)
      (fun _ => Except.ok { receiver := [1, 2, 3] })
      (ActiveSSE.new (Config.activity "http://host:5260"))
      = Except.ok [1, 2, 3] :=
  C9_subscribe_delivers_in_order
    (fun _ => Except.ok { receiver := [1, 2, 3] })
    (ActiveSSE.new (Config.activity "http://host:5260"))
    [1, 2, 3] rfl

/-- Claim C10: no argument validation anywhere: the factories accept every
string (empty or syntactically invalid), and every kind-legal setter
whose precondition holds accepts every argument string, records it as
set, and appends it verbatim; in particular `set_stream_id("")`
succeeds, marks `stream_id` set, and leaves the resolved path textually
unchanged. -/
theorem C10_no_argument_validation :
    (∀ u : String, (Config.activity u).config_type = ConfigType.Activity
      ∧ (Config.event u).config_type = ConfigType.Event)
    ∧ (∀ (c : Config) (s : String), c.config_type = ConfigType.Activity →
      c.set_stream_id s
        = (none, { c with stream_id := some s, url := c.url ++ s }))
    ∧ (∀ (c : Config) (s : String), c.config_type = ConfigType.Event →
      c.set_contract s
        = (none, { c with contract := some s, url := c.url ++ s }))
    ∧ (∀ (c : Config) (s x : String), c.config_type = ConfigType.Event →
      c.contract = some x →
      c.set_event s
        = (none, { c with event_name := some s, url := c.url ++ s }))
    ∧ (∀ u : String,
      ((Config.activity u).set_stream_id "").1 = none
      ∧ ((Config.activity u).set_stream_id "").2.stream_id = some ""
      ∧ ((Config.activity u).set_stream_id "").2.get_url
          = (Config.activity u).get_url) := by
  refine ⟨fun u => ⟨rfl, rfl⟩, ?_, ?_, ?_, ?_⟩
  · intro c s h
    simp [Config.set_stream_id, h]
  · intro c s h
    simp [Config.set_contract, h]
  · intro c s x h hc
    simp [Config.set_event, h, hc]
  · intro u
    refine ⟨rfl, rfl, ?_⟩
    simp [Config.set_stream_id, Config.activity, Config.get_url,
      string_append_empty]

theorem C10_no_argument_validation_witness :
    (Config.activity "u").set_stream_id ""
      = (none,
          { url := (Config.activity "u").url ++ ""
            config_type := ConfigType.Activity
            stream_id := some ""
            contract := none
            event_name := none }) :=
  (C10_no_argument_validation.2).1 (Config.activity "u") "" rfl
